import Mathlib

/-!
# Verification of `custom-check.py` (emistr-watchdog)

Shallow embedding of `src/Emistr.Watchdog/scripts/custom-check.py`:
a health-check script that assembles three placeholder checks, derives an
overall status (OK / WARNING / CRITICAL) with a numeric severity code,
and renders either human-readable or JSON output.

The process environment is modelled as a function `String → Option String`
(`os.environ.get`), and the clock reading (`datetime.utcnow().isoformat()`)
as an explicit `timestamp` argument, so the script becomes a pure function
of its ambient inputs.
-/

namespace Watchdog

/-- One entry of the `checks` list: a Python dict with keys
`name`, `value`, `ok`, and possibly `severity` (`none` models the key
being absent, as in `c.get("severity")`). -/
structure CheckEntry where
  name : String
  value : String
  ok : Bool
  severity : Option String
deriving DecidableEq, Repr

/-- The `result` dict built by `check_health`: keys
`timestamp`, `status`, `checks`. -/
structure HealthResult where
  timestamp : String
  status : String
  checks : List CheckEntry
deriving DecidableEq, Repr

/-- `[c for c in result["checks"] if not c["ok"]]` -/
def failed_checks (checks : List CheckEntry) : List CheckEntry :=
  checks.filter (fun c => !c.ok)

/-- `len([c for c in failed_checks if c.get("severity") != "critical"])` -/
def warning_count (checks : List CheckEntry) : Nat :=
  ((failed_checks checks).filter (fun c => c.severity != some "critical")).length

/-- `len([c for c in failed_checks if c.get("severity") == "critical"])` -/
def critical_count (checks : List CheckEntry) : Nat :=
  ((failed_checks checks).filter (fun c => c.severity == some "critical")).length

/-- The "Determine overall status" tail of `check_health`
(lines 57-70 of the script): the returned pair is
`(exit code, overall status string)`. -/
def determine_status (checks : List CheckEntry) : Nat × String :=
  if critical_count checks > 0 then (2, "CRITICAL")
  else if warning_count checks > 0 then (1, "WARNING")
  else (0, "OK")

/-- The environment: `os.environ` as a partial map from variable names to
values. -/
abbrev Env : Type := String → Option String

/-- `check_health(verbose=False)`. The `verbose` parameter is accepted by
the Python function and never used. Returns `(exit_code, result)`. -/
def check_health (env : Env) (timestamp : String) (verbose : Bool) : Nat × HealthResult :=
  let _ := verbose
  let check_mode := (env "CHECK_MODE").getD "default"
  let checks : List CheckEntry :=
    [ { name := "Environment", value := check_mode, ok := true, severity := none },
      { name := "CPU Usage", value := "Normal", ok := true, severity := none },
      { name := "External API", value := "Reachable", ok := true, severity := none } ]
  let cs := determine_status checks
  (cs.1, { timestamp := timestamp, status := cs.2, checks := checks })

/-! ## JSON model

`json.dumps(result, ...)` first views `result` as a JSON tree; we model the
tree explicitly (`Json`) with the field order of the Python dicts, and the
textual serialization below. -/

/-- JSON values, restricted to the forms the script can emit. -/
inductive Json where
  | str : String → Json
  | bool : Bool → Json
  | arr : List Json → Json
  | obj : List (String × Json) → Json

/-- The JSON object for one check dict; the `severity` key is present
exactly when the dict carries it. -/
def CheckEntry.toJson (c : CheckEntry) : Json :=
  Json.obj ([("name", Json.str c.name), ("value", Json.str c.value),
             ("ok", Json.bool c.ok)] ++
    (match c.severity with
     | none => []
     | some s => [("severity", Json.str s)]))

/-- The JSON object for the `result` dict, in insertion order. -/
def HealthResult.toJson (r : HealthResult) : Json :=
  Json.obj [("timestamp", Json.str r.timestamp), ("status", Json.str r.status),
            ("checks", Json.arr (r.checks.map CheckEntry.toJson))]

/-- The keys of a JSON object, in order. -/
def Json.keys : Json → List String
  | .obj fs => fs.map Prod.fst
  | _ => []

def Json.getStr : Json → Option String
  | .str s => some s
  | _ => none

def Json.getBool : Json → Option Bool
  | .bool b => some b
  | _ => none

/-- Field lookup in a JSON object. -/
def Json.getField (j : Json) (k : String) : Option Json :=
  match j with
  | .obj fs => fs.lookup k
  | _ => none

/-- Parse a check object back into a `CheckEntry` (the inverse direction of
the JSON round trip). -/
def CheckEntry.fromJson (j : Json) : Option CheckEntry := do
  let n ← (j.getField "name").bind Json.getStr
  let v ← (j.getField "value").bind Json.getStr
  let o ← (j.getField "ok").bind Json.getBool
  some { name := n, value := v, ok := o,
         severity := (j.getField "severity").bind Json.getStr }

/-- Parse a result object back into a `HealthResult`. -/
def HealthResult.fromJson (j : Json) : Option HealthResult := do
  let t ← (j.getField "timestamp").bind Json.getStr
  let s ← (j.getField "status").bind Json.getStr
  let cj ← j.getField "checks"
  match cj with
  | .arr js => do
      let cs ← js.mapM CheckEntry.fromJson
      some { timestamp := t, status := s, checks := cs }
  | _ => none

/-! ## Textual JSON serialization

Models `json.dumps` on the fixed shape the script emits.  String escaping
covers the quote, the backslash and the control characters (the named
short escapes plus `\u00XX`); transcription of non-ASCII characters to
`\uXXXX` sequences is not modelled, since no claim depends on the exact
bytes of such characters. -/

/-- The lower-case hex digit for `n % 16`. -/
def hexDigit (n : Nat) : Char :=
  match n % 16 with
  | 0 => '0' | 1 => '1' | 2 => '2' | 3 => '3' | 4 => '4' | 5 => '5'
  | 6 => '6' | 7 => '7' | 8 => '8' | 9 => '9' | 10 => 'a' | 11 => 'b'
  | 12 => 'c' | 13 => 'd' | 14 => 'e' | _ => 'f'

/-- `sep.join(parts)`: concatenation with a separator between elements. -/
def joinSep (sep : String) : List String → String
  | [] => ""
  | [x] => x
  | x :: xs => x ++ sep ++ joinSep sep xs

/-- `json.dumps` escaping of a single character. -/
def escapeChar (c : Char) : String :=
  if c = '"' then "\\\""
  else if c = '\\' then "\\\\"
  else if c = '\x08' then "\\b"
  else if c = '\x0c' then "\\f"
  else if c = '\n' then "\\n"
  else if c = '\r' then "\\r"
  else if c = '\t' then "\\t"
  else if c.val < 32 then
    String.mk ['\\', 'u', '0', '0', hexDigit (c.toNat / 16), hexDigit c.toNat]
  else String.mk [c]

def escapeList : List Char → List Char
  | [] => []
  | c :: cs => (escapeChar c).data ++ escapeList cs

/-- A JSON string literal: quoted and escaped. -/
def qstr (s : String) : String :=
  "\"" ++ String.mk (escapeList s.data) ++ "\""

def jsonBool (b : Bool) : String := if b then "true" else "false"

/-- The trailing `, "severity": ...` fragment of a serialized check dict,
empty when the key is absent. -/
def severityFragment (c : CheckEntry) : String :=
  match c.severity with
  | none => ""
  | some s => ", \"severity\": " ++ qstr s

/-- Compact serialization of one check dict
(`json.dumps` default separators `", "` and `": "`). -/
def dumpCheckCompact (c : CheckEntry) : String :=
  "\x7b\"name\": " ++ qstr c.name ++ ", \"value\": " ++ qstr c.value ++
  ", \"ok\": " ++ jsonBool c.ok ++ severityFragment c ++ "\x7d"

/-- Compact (single-call, `indent=None`) serialization of the result dict. -/
def dumpsCompact (r : HealthResult) : String :=
  "\x7b\"timestamp\": " ++ qstr r.timestamp ++ ", \"status\": " ++ qstr r.status ++
  ", \"checks\": [" ++
  joinSep ", " (r.checks.map dumpCheckCompact) ++ "]\x7d"

/-- `n` spaces. -/
def indentStr (n : Nat) : String := String.mk (List.replicate n ' ')

/-- Indented serialization of one check dict, at nesting depth 2
(`json.dumps(result, indent=n)` layout). -/
def dumpCheckIndent (n : Nat) (c : CheckEntry) : String :=
  let pad := indentStr (3 * n)
  let padEnd := indentStr (2 * n)
  "\x7b\n" ++ pad ++ "\"name\": " ++ qstr c.name ++ ",\n" ++
  pad ++ "\"value\": " ++ qstr c.value ++ ",\n" ++
  pad ++ "\"ok\": " ++ jsonBool c.ok ++
  (match c.severity with
   | none => ""
   | some s => ",\n" ++ pad ++ "\"severity\": " ++ qstr s) ++
  "\n" ++ padEnd ++ "\x7d"

/-- Indented (`indent=n`) serialization of the result dict. -/
def dumpsIndent (n : Nat) (r : HealthResult) : String :=
  let pad := indentStr n
  let pad2 := indentStr (2 * n)
  "\x7b\n" ++ pad ++ "\"timestamp\": " ++ qstr r.timestamp ++ ",\n" ++
  pad ++ "\"status\": " ++ qstr r.status ++ ",\n" ++
  pad ++ "\"checks\": [" ++
  (if r.checks.isEmpty then "" else
    "\n" ++ pad2 ++
    joinSep (",\n" ++ pad2) (r.checks.map (dumpCheckIndent n)) ++
    "\n" ++ pad) ++ "]\n\x7d"

/-- `json.dumps(result, indent=...)`: `indent=None` is compact, `indent=n`
is the indented layout. -/
def dumps (r : HealthResult) (indent : Option Nat) : String :=
  match indent with
  | none => dumpsCompact r
  | some n => dumpsIndent n r

/-! ## CLI front-end (`main`) -/

/-- The two parsed flags. -/
structure Args where
  verbose : Bool
  json : Bool
deriving DecidableEq, Repr

/-- One human-readable line per check:
`print(f"  {status} {check['name']}: {check['value']}")`. -/
def renderCheckLine (check : CheckEntry) : String :=
  let status := if check.ok then "✓" else "✗"
  "  " ++ status ++ " " ++ check.name ++ ": " ++ check.value

/-- The human-readable rendering, as the list of printed lines:
`Status: <STATUS>` followed by one line per check. -/
def humanLines (result : HealthResult) : List String :=
  ("Status: " ++ result.status) :: result.checks.map renderCheckLine

/-- `main`: calls `check_health(verbose=args.verbose)`, renders JSON or
human-readable output, and exits with the returned code.  Returns the
printed text and the process exit code. -/
def main_run (env : Env) (timestamp : String) (args : Args) : String × Nat :=
  let er := check_health env timestamp args.verbose
  let out :=
    if args.json then dumps er.2 (if args.verbose then some 2 else none)
    else joinSep "\n" (humanLines er.2)
  (out, er.1)

/-! ## Theorems -/

theorem critical_count_pos_iff (checks : List CheckEntry) :
    0 < critical_count checks ↔
      ∃ c ∈ checks, c.ok = false ∧ c.severity = some "critical" := by
  simp [critical_count, failed_checks, List.length_pos_iff_exists_mem,
    List.mem_filter, and_assoc, and_comm]

theorem warning_count_pos_iff (checks : List CheckEntry) :
    0 < warning_count checks ↔
      ∃ c ∈ checks, c.ok = false ∧ c.severity ≠ some "critical" := by
  simp [warning_count, failed_checks, List.length_pos_iff_exists_mem,
    List.mem_filter, and_assoc, and_comm]

/-- C1: the status derived by `check_health`'s aggregation is `CRITICAL`
when some check has `ok = false` with `severity = "critical"`, else
`WARNING` when some check has `ok = false`, else `OK`. -/
theorem c1_status_invariant (checks : List CheckEntry) :
    (determine_status checks).2 =
      if ∃ c ∈ checks, c.ok = false ∧ c.severity = some "critical" then "CRITICAL"
      else if ∃ c ∈ checks, c.ok = false then "WARNING"
      else "OK" := by
  by_cases hc : 0 < critical_count checks
  · rw [determine_status, if_pos hc, if_pos ((critical_count_pos_iff checks).mp hc)]
  · have hc' := hc
    rw [critical_count_pos_iff] at hc'
    rw [determine_status, if_neg hc, if_neg hc']
    by_cases hw : 0 < warning_count checks
    · obtain ⟨c, hmem, hok, _⟩ := (warning_count_pos_iff checks).mp hw
      rw [if_pos hw, if_pos ⟨c, hmem, hok⟩]
    · have hw' := hw
      rw [warning_count_pos_iff] at hw'
      have hfail : ¬ ∃ c ∈ checks, c.ok = false := by
        intro ⟨c, hmem, hok⟩
        by_cases hs : c.severity = some "critical"
        · exact hc' ⟨c, hmem, hok, hs⟩
        · exact hw' ⟨c, hmem, hok, hs⟩
      rw [if_neg hw, if_neg hfail]

/-- C3 (also used below): the three checks built by `check_health` are all
`ok = true`, hence every run returns exit code 0 and status `"OK"`. -/
theorem c3_always_ok (env : Env) (ts : String) (v : Bool) :
    (check_health env ts v).1 = 0 ∧ (check_health env ts v).2.status = "OK" := by
  constructor <;> rfl

/-- C2: the numeric severity code is 0 exactly for status `OK`, 1 exactly
for `WARNING` (some non-critical failure, no critical one), 2 exactly for
`CRITICAL` (some critical failure, taking precedence), and `main` exits
with the code returned by `check_health`. -/
theorem c2_severity_codes :
    (∀ checks : List CheckEntry,
      ((determine_status checks).1 = 0 ↔ (determine_status checks).2 = "OK") ∧
      ((determine_status checks).1 = 1 ↔ (determine_status checks).2 = "WARNING") ∧
      ((determine_status checks).1 = 2 ↔ (determine_status checks).2 = "CRITICAL") ∧
      ((determine_status checks).1 = 2 ↔
        ∃ c ∈ checks, c.ok = false ∧ c.severity = some "critical") ∧
      ((determine_status checks).1 = 1 ↔
        ((∃ c ∈ checks, c.ok = false ∧ c.severity ≠ some "critical") ∧
         ¬ ∃ c ∈ checks, c.ok = false ∧ c.severity = some "critical"))) ∧
    (∀ (env : Env) (ts : String) (args : Args),
      (main_run env ts args).2 = (check_health env ts args.verbose).1) := by
  constructor
  · intro checks
    by_cases hc : 0 < critical_count checks
    · rw [determine_status, if_pos hc]
      refine ⟨by simp, by simp, by simp, ?_, ?_⟩
      · simpa using (critical_count_pos_iff checks).mp hc
      · simp only [iff_false_intro (by decide : ¬ (2 : Nat) = 1), false_iff]
        intro ⟨_, hnone⟩
        exact hnone ((critical_count_pos_iff checks).mp hc)
    · have hcrit := hc
      rw [critical_count_pos_iff] at hcrit
      rw [determine_status, if_neg hc]
      by_cases hw : 0 < warning_count checks
      · rw [if_pos hw]
        refine ⟨by simp, by simp, by simp, by simpa using hcrit, ?_⟩
        simp only [iff_true_intro rfl, true_iff]
        exact ⟨(warning_count_pos_iff checks).mp hw, hcrit⟩
      · have hwarn := hw
        rw [warning_count_pos_iff] at hw
        rw [if_neg hwarn]
        refine ⟨by simp, by simp, by simp, by simpa using hcrit, ?_⟩
        simp only [iff_false_intro (by decide : ¬ (0 : Nat) = 1), false_iff]
        intro ⟨hex, _⟩
        exact hw hex
  · intro env ts args
    rfl

/-- C4: the `Environment` check's value is exactly the `CHECK_MODE`
environment value (`"default"` when unset), and `CHECK_MODE` never
influences the exit code or the derived status. -/
theorem c4_check_mode_echo :
    (∀ (env : Env) (ts : String) (v : Bool),
      (check_health env ts v).2.checks.find? (fun c => c.name == "Environment") =
        some { name := "Environment", value := (env "CHECK_MODE").getD "default",
               ok := true, severity := none }) ∧
    (∀ (ts : String) (v : Bool),
      (check_health (fun _ => none) ts v).2.checks.find?
          (fun c => c.name == "Environment") =
        some { name := "Environment", value := "default",
               ok := true, severity := none }) ∧
    (∀ (env₁ env₂ : Env) (ts : String) (v : Bool),
      (check_health env₁ ts v).1 = (check_health env₂ ts v).1 ∧
      (check_health env₁ ts v).2.status = (check_health env₂ ts v).2.status) := by
  refine ⟨fun env ts v => rfl, fun ts v => rfl, fun env₁ env₂ ts v => ⟨rfl, rfl⟩⟩

/-- C8: the `verbose` flag is ignored by `check_health` and by the
human-readable rendering: two runs differing only in `verbose` return the
same `(exit_code, result)` pair and print the same non-JSON output. -/
theorem c8_verbose_noninterference (env : Env) (ts : String) (v₁ v₂ : Bool) :
    check_health env ts v₁ = check_health env ts v₂ ∧
    main_run env ts { verbose := v₁, json := false } =
      main_run env ts { verbose := v₂, json := false } := by
  exact ⟨rfl, rfl⟩

/-- C9: `check_health` is a pure function of the clock reading and the
single environment variable `CHECK_MODE`: any two environments agreeing on
`CHECK_MODE` yield identical `(exit_code, result)` pairs. -/
theorem c9_env_determinism (env₁ env₂ : Env) (ts : String) (v : Bool)
    (h : env₁ "CHECK_MODE" = env₂ "CHECK_MODE") :
    check_health env₁ ts v = check_health env₂ ts v := by
  simp only [check_health, h]

theorem c9_env_determinism_witness :
    ((fun k => if k = "CHECK_MODE" then some "probe" else none : Env) "CHECK_MODE" =
      (fun _ => some "probe" : Env) "CHECK_MODE") ∧
    check_health (fun k => if k = "CHECK_MODE" then some "probe" else none) "T" false =
      check_health (fun _ => some "probe") "T" false :=
  ⟨by simp, c9_env_determinism
    (fun k => if k = "CHECK_MODE" then some "probe" else none)
    (fun _ => some "probe") "T" false (by simp)⟩

/-- C10: every run produces exactly the three fixed checks, in order, all
`ok = true` with no `severity` key, and in general the failing checks
partition exactly into warnings and criticals. -/
theorem c10_fixed_checks :
    (∀ (env : Env) (ts : String) (v : Bool),
      (check_health env ts v).2.checks =
        [ { name := "Environment", value := (env "CHECK_MODE").getD "default",
            ok := true, severity := none },
          { name := "CPU Usage", value := "Normal", ok := true, severity := none },
          { name := "External API", value := "Reachable", ok := true,
            severity := none } ]) ∧
    (∀ checks : List CheckEntry,
      warning_count checks + critical_count checks =
        (failed_checks checks).length) := by
  constructor
  · intro env ts v
    rfl
  · intro checks
    rw [warning_count, critical_count, Nat.add_comm]
    exact (List.length_eq_length_filter_add (l := failed_checks checks)
      (fun c => c.severity == some "critical")).symm

/-- C5: with no flags, the printed output is `Status: OK` followed by one
pass-glyph line per default probe, and the exit code is 0. -/
theorem c5_human_default (env : Env) (ts : String) :
    main_run env ts { verbose := false, json := false } =
      (joinSep "\n"
        [ "Status: OK",
          "  ✓ Environment: " ++ (env "CHECK_MODE").getD "default",
          "  ✓ CPU Usage: Normal",
          "  ✓ External API: Reachable" ], 0) := by
  rfl

theorem hexDigit_ne_newline (n : Nat) : hexDigit n ≠ '\n' := by
  unfold hexDigit
  split <;> decide

theorem newline_not_mem_escapeChar (c : Char) : '\n' ∉ (escapeChar c).data := by
  unfold escapeChar
  split
  · decide
  split
  · decide
  split
  · decide
  split
  · decide
  split
  · decide
  split
  · decide
  split
  · decide
  split
  · intro hmem
    have hmem' : '\n' ∈ ['\\', 'u', '0', '0',
        hexDigit (c.toNat / 16), hexDigit c.toNat] := hmem
    simp only [List.mem_cons, List.not_mem_nil, or_false] at hmem'
    rcases hmem' with h | h | h | h | h | h
    · exact absurd h (by decide)
    · exact absurd h (by decide)
    · exact absurd h (by decide)
    · exact absurd h (by decide)
    · exact hexDigit_ne_newline _ h.symm
    · exact hexDigit_ne_newline _ h.symm
  · rename_i hq hbs hb hf hn hr ht hv
    intro hmem
    have hmem' : '\n' ∈ [c] := hmem
    exact hn (List.mem_singleton.mp hmem').symm

theorem newline_not_mem_append {s t : String}
    (hs : '\n' ∉ s.data) (ht : '\n' ∉ t.data) : '\n' ∉ (s ++ t).data := by
  rw [String.data_append]
  intro h
  rcases List.mem_append.mp h with h | h
  · exact hs h
  · exact ht h

theorem newline_not_mem_escapeList (cs : List Char) : '\n' ∉ escapeList cs := by
  induction cs with
  | nil => simp [escapeList]
  | cons c cs ih =>
    rw [escapeList]
    intro h
    rcases List.mem_append.mp h with h | h
    · exact newline_not_mem_escapeChar c h
    · exact ih h

theorem newline_not_mem_qstr (s : String) : '\n' ∉ (qstr s).data := by
  refine newline_not_mem_append (newline_not_mem_append ?_ ?_) (by decide)
  · decide
  · exact newline_not_mem_escapeList s.data

theorem newline_not_mem_jsonBool (b : Bool) : '\n' ∉ (jsonBool b).data := by
  cases b <;> decide

theorem newline_not_mem_severityFragment (c : CheckEntry) :
    '\n' ∉ (severityFragment c).data := by
  unfold severityFragment
  split
  · decide
  · exact newline_not_mem_append (by decide) (newline_not_mem_qstr _)

theorem newline_not_mem_dumpCheckCompact (c : CheckEntry) :
    '\n' ∉ (dumpCheckCompact c).data := by
  unfold dumpCheckCompact
  exact newline_not_mem_append (newline_not_mem_append (newline_not_mem_append
    (newline_not_mem_append (newline_not_mem_append (newline_not_mem_append
      (newline_not_mem_append (by decide) (newline_not_mem_qstr _)) (by decide))
      (newline_not_mem_qstr _)) (by decide)) (newline_not_mem_jsonBool _))
    (newline_not_mem_severityFragment _)) (by decide)

theorem newline_not_mem_joinSep (sep : String) (l : List String)
    (hsep : '\n' ∉ sep.data) (h : ∀ s ∈ l, '\n' ∉ s.data) :
    '\n' ∉ (joinSep sep l).data := by
  induction l with
  | nil => simp [joinSep]
  | cons x xs ih =>
    cases xs with
    | nil => exact h x (by simp)
    | cons y ys =>
      show '\n' ∉ (x ++ sep ++ joinSep sep (y :: ys)).data
      refine newline_not_mem_append
        (newline_not_mem_append (h x (by simp)) hsep) ?_
      exact ih (fun s hs => h s (List.mem_cons_of_mem x hs))

theorem newline_not_mem_dumpsCompact (r : HealthResult) :
    '\n' ∉ (dumpsCompact r).data := by
  unfold dumpsCompact
  refine newline_not_mem_append (newline_not_mem_append (newline_not_mem_append
    (newline_not_mem_append (newline_not_mem_append (newline_not_mem_append
      (by decide) (newline_not_mem_qstr _)) (by decide))
      (newline_not_mem_qstr _)) (by decide)) ?_) (by decide)
  refine newline_not_mem_joinSep _ _ (by decide) ?_
  intro s hs
  rcases List.mem_map.mp hs with ⟨c, _, rfl⟩
  exact newline_not_mem_dumpCheckCompact c

theorem newline_mem_append_left {s t : String} (hs : '\n' ∈ s.data) :
    '\n' ∈ (s ++ t).data := by
  rw [String.data_append]
  exact List.mem_append_left _ hs

/-- C6: in JSON mode the output is the 2-space-indented, multi-line
serialization when `verbose` is set, and the compact single-line
serialization when it is not. -/
theorem c6_json_indentation (env : Env) (ts : String) :
    ((main_run env ts { verbose := true, json := true }).1 =
        dumpsIndent 2 (check_health env ts true).2 ∧
      '\n' ∈ (main_run env ts { verbose := true, json := true }).1.data) ∧
    ((main_run env ts { verbose := false, json := true }).1 =
        dumpsCompact (check_health env ts false).2 ∧
      '\n' ∉ (main_run env ts { verbose := false, json := true }).1.data) := by
  refine ⟨⟨rfl, ?_⟩, ⟨rfl, ?_⟩⟩
  · show '\n' ∈ (dumpsIndent 2 (check_health env ts true).2).data
    unfold dumpsIndent
    repeat apply newline_mem_append_left
    decide
  · show '\n' ∉ (dumpsCompact (check_health env ts false).2).data
    exact newline_not_mem_dumpsCompact _

/-- C7: the JSON object serialized in JSON mode has exactly the fields
`timestamp`, `status`, `checks`; every element of `checks` has exactly the
fields `name`, `value`, `ok`; and parsing the object back yields the
original `HealthResult`. -/
theorem c7_json_roundtrip (env : Env) (ts : String) (v : Bool) :
    Json.keys (HealthResult.toJson (check_health env ts v).2) =
      ["timestamp", "status", "checks"] ∧
    ((HealthResult.toJson (check_health env ts v).2).getField "checks" =
      some (Json.arr ((check_health env ts v).2.checks.map CheckEntry.toJson))) ∧
    (∀ c ∈ (check_health env ts v).2.checks,
      Json.keys (CheckEntry.toJson c) = ["name", "value", "ok"]) ∧
    HealthResult.fromJson (HealthResult.toJson (check_health env ts v).2) =
      some (check_health env ts v).2 := by
  refine ⟨rfl, rfl, ?_, rfl⟩
  intro c hc
  simp only [check_health, List.mem_cons, List.not_mem_nil, or_false] at hc
  rcases hc with rfl | rfl | rfl <;> rfl

end Watchdog
